import Mathlib

/-!
Shallow embedding of the PyErrorSchema library core
(`pyerrorschema/base/err_base.py`, `pyerrorschema/base/err_group.py`,
`pyerrorschema/mappings/mapper.py`, `pyerrorschema/mappings/exceptions.py`,
`pyerrorschema/utils/decorators.py`), together with theorems checking the
natural-language specification against the code.

Python strings are `String`, keyword-argument dictionaries are explicit
records of the keys the code touches, and each Python-level failure mode
(ValueError, TypeError, IndexError, pydantic's extra-field rejection) is a
constructor of an explicit result type.
-/

namespace PyErrorSchema

/-! ## String helpers mirroring the Python primitives used by the code -/

/-- Python `str.capitalize()`: first character upper-cased, the rest
lower-cased. -/
def pyCapitalize (s : String) : String :=
  match s.data with
  | [] => ""
  | c :: cs => String.mk (c.toUpper :: cs.map Char.toLower)

/-- Python `s.replace("_", " ")` for the single-character pattern used by
`_create_error`. -/
def underscoreToSpace (s : String) : String :=
  String.mk (s.data.map (fun c => if c = '_' then ' ' else c))

/-- Python `str.lower()`. -/
def pyLower (s : String) : String :=
  String.mk (s.data.map Char.toLower)

/-- Helper: does the first character list start with the second pattern. -/
def listStartsWith : List Char → List Char → Bool
  | [], _ => true
  | _ :: _, [] => false
  | p :: ps, c :: cs => p == c && listStartsWith ps cs

/-- Helper: does the pattern occur as a contiguous run of the list. -/
def listOccursIn (pat : List Char) : List Char → Bool
  | [] => pat.isEmpty
  | c :: rest => listStartsWith pat (c :: rest) || listOccursIn pat rest

/-- Python `pat in s` substring containment. -/
def strContainsSub (s pat : String) : Bool :=
  listOccursIn pat.data s.data

/-! ## Data model: `ErrorSchema` (base variant, fields `type` and `msg`) -/

/-- The base `ErrorSchema` pydantic model: fields `type` and `msg`, both
defaulting to the empty string, with `extra="forbid"`. -/
structure ErrorSchema where
  type : String
  msg : String
  deriving DecidableEq, Repr

/-- The record returned by `ErrorSchema.to_dict()` (`model_dump()`): the
field-name/value pairs of the instance, no derived fields. -/
def ErrorSchema.toDict (s : ErrorSchema) : List (String × String) :=
  [("type", s.type), ("msg", s.msg)]

/-- Keyword arguments reaching `_create_error` for the base schema: the keys
the code touches (`type`, `msg`, `exc`) plus the names of any further unknown
keys. `exc` carries `str(exception)`; `none` means the key is absent. -/
structure Kwargs where
  type : Option String := none
  msg : Option String := none
  exc : Option String := none
  extra : List String := []
  deriving DecidableEq, Repr

/-- Outcome of a factory call: either an `ErrorSchema` instance or one of the
Python-level failures the code can raise (ValueError from
`restrict_arguments`/`validate_schema`, TypeError from an `isinstance` guard
or a duplicated keyword, pydantic's rejection of extra fields under
`extra="forbid"`, IndexError from indexing an empty string or tuple). -/
inductive PyResult where
  | ok (s : ErrorSchema)
  | valueError (msg : String)
  | typeError (msg : String)
  | validationError (extraFields : List String)
  | indexError
  deriving DecidableEq, Repr

/-! ## `ErrorSchema._create_error` and the factory methods -/

/-- Embedding of `ErrorSchema._create_error` (base variant).  Mirrors the
source line by line: `msg = kwargs.pop("msg", default_msg)`; if `"exc" in
kwargs` the exception text is appended in parentheses (note: `exc` is *not*
popped); `pretty_type = error_type.replace("_", " ").capitalize()`;
`msg = msg[0].lower() + msg[1:]` (IndexError on an empty message); finally
`cls(type=..., msg=..., **kwargs)` — a leftover `type` key is a duplicate
keyword (TypeError), and any other leftover keys (including `exc`) are
rejected by pydantic's `extra="forbid"`. -/
def createError (errorType defaultMsg : String) (kw : Kwargs) : PyResult :=
  let msg0 := kw.msg.getD defaultMsg
  let msg1 :=
    match kw.exc with
    | some e => msg0 ++ " (" ++ e ++ ")"
    | none => msg0
  let prettyType := pyCapitalize (underscoreToSpace errorType)
  match msg1.data with
  | [] => .indexError
  | c :: cs =>
    let msg2 := String.mk (c.toLower :: cs)
    if kw.type.isSome then
      .typeError "got multiple values for keyword argument 'type'"
    else
      let leftover := (if kw.exc.isSome then ["exc"] else []) ++ kw.extra
      if leftover.isEmpty then
        .ok { type := errorType, msg := prettyType ++ ": " ++ msg2 }
      else
        .validationError leftover

/-- Embedding of the `restrict_arguments("type")` decorator
(`utils/decorators.py`): raises ValueError when the forbidden key `type`
appears among the keyword arguments, otherwise calls the wrapped factory. -/
def restrictType (f : Kwargs → PyResult) (kw : Kwargs) : PyResult :=
  if kw.type.isSome then
    .valueError "Overriding the 'type' field is not allowed."
  else
    f kw

/-- Factory `ErrorSchema.database_error`. -/
def databaseError : Kwargs → PyResult :=
  restrictType (createError "database_error" "Database error occurred.")

/-- Factory `ErrorSchema.file_error`. -/
def fileError : Kwargs → PyResult :=
  restrictType (createError "file_error" "File error occurred.")

/-- Factory `ErrorSchema.runtime_error`. -/
def runtimeError : Kwargs → PyResult :=
  restrictType (createError "runtime_error" "Runtime error occurred.")

/-- Factory `ErrorSchema.timeout_error`. -/
def timeoutError : Kwargs → PyResult :=
  restrictType (createError "timeout_error" "Timeout error occurred.")

/-- Factory `ErrorSchema.parse_error`. -/
def parseError : Kwargs → PyResult :=
  restrictType (createError "parse_error" "Parse error occurred.")

/-- Factory `ErrorSchema.value_error`. -/
def valueErrorFactory : Kwargs → PyResult :=
  restrictType (createError "value_error" "Value error occurred.")

/-- Factory `ErrorSchema.customized_error`: pops `type` from the keyword
arguments (default `"customized_error"`) and delegates to `_create_error`. -/
def customizedError (kw : Kwargs) : PyResult :=
  createError (kw.type.getD "customized_error") "Customized error occurred."
    { kw with type := none }

/-! ## Exception Mapper (`mappings/exceptions.py`, `mappings/mapper.py`) -/

/-- A two-level exception-mapping table: module name to a list of
(exception-class name, error-type tag) pairs, as in `exceptions.py`. -/
abbrev MappingTable := List (String × List (String × String))

/-- Constant `DEFAULT_ERROR_TYPE` from `mappings/exceptions.py`. -/
def DEFAULT_ERROR_TYPE : String := "unknown_error"

/-- Table `EXCEPTION_MAPPINGS_BASE` from `mappings/exceptions.py`. -/
def EXCEPTION_MAPPINGS_BASE : MappingTable :=
  [("builtins",
    [("FileNotFoundError", "file_error"),
     ("IsADirectoryError", "file_error"),
     ("NotADirectoryError", "file_error"),
     ("PermissionError", "file_error"),
     ("FileExistsError", "file_error"),
     ("ValueError", "value_error"),
     ("TypeError", "value_error"),
     ("AttributeError", "value_error"),
     ("RuntimeError", "runtime_error"),
     ("NotImplementedError", "runtime_error"),
     ("ImportError", "runtime_error"),
     ("OSError", "runtime_error"),
     ("Exception", DEFAULT_ERROR_TYPE),
     ("BaseException", DEFAULT_ERROR_TYPE),
     ("object", DEFAULT_ERROR_TYPE)]),
   ("json.decoder", [("JSONDecodeError", "value_error")]),
   ("requests.exceptions", [("Timeout", "timeout_error")]),
   ("psycopg2",
    [("OperationalError", "database_error"),
     ("ProgrammingError", "database_error"),
     ("IntegrityError", "database_error"),
     ("DataError", "database_error"),
     ("DatabaseError", "database_error"),
     ("InterfaceError", "database_error"),
     ("Warning", "database_error")]),
   ("psycopg2.errors",
    [("UndefinedTable", "value_error"),
     ("ForeignKeyViolation", "value_error"),
     ("UndefinedColumn", "value_error"),
     ("UniqueViolation", "value_error"),
     ("NotNullViolation", "value_error")]),
   ("psycopg2.pool", [("PoolError", "database_error")])]

/-- Table `EXCEPTION_MAPPINGS_FASTAPI` from `mappings/exceptions.py`:
`{**EXCEPTION_MAPPINGS_BASE, ...}` with two extra module keys (no key of the
base table is overridden, so the dict merge is concatenation). -/
def EXCEPTION_MAPPINGS_FASTAPI : MappingTable :=
  EXCEPTION_MAPPINGS_BASE ++
  [("docker.errors",
    [("APIError", "docker_error"),
     ("ContainerError", "docker_error"),
     ("DockerException", "docker_error"),
     ("ImageNotFound", "docker_error"),
     ("NotFound", "docker_error")]),
   ("pydantic_core._pydantic_core", [("ValidationError", "validation_error")])]

/-- Embedding of `ExceptionMapper.validate_schema`'s membership test against
`_valid_schemas = frozenset(SCHEMA_TO_MAPPINGS.keys())`. -/
def validSchema (schemaName : String) : Bool :=
  schemaName == "ErrorSchema" || schemaName == "FastAPIErrorSchema"

/-- Embedding of `ExceptionMapper.get_mapping` for an explicit schema name:
validates the name (ValueError on an unknown schema) and returns the table
from `SCHEMA_TO_MAPPINGS`.  The `lru_cache` is semantically transparent (the
function is pure) and is not modelled here. -/
def getMapping (schemaName : String) : Except String MappingTable :=
  if schemaName == "ErrorSchema" then .ok EXCEPTION_MAPPINGS_BASE
  else if schemaName == "FastAPIErrorSchema" then .ok EXCEPTION_MAPPINGS_FASTAPI
  else .error ("Unknown schema: " ++ schemaName)

/-- Single-level table lookup, as in `ExceptionMapper.get_error_type`:
`mapping.get(exc_module, {}).get(exc_class, None)`. -/
def lookupTable (tbl : MappingTable) (excModule excClass : String) : Option String :=
  match tbl.find? (fun p => p.1 == excModule) with
  | none => none
  | some (_, m) => (m.find? (fun p => p.1 == excClass)).map (·.2)

/-- Embedding of `ExceptionMapper.get_error_type` for a schema name assumed
already valid elsewhere is `lookupTable`; the full method also validates the
schema name through `get_mapping`. -/
def getErrorType (schemaName excModule excClass : String) : Except String (Option String) :=
  (getMapping schemaName).map (fun tbl => lookupTable tbl excModule excClass)

/-- The loop of `ExceptionMapper.get_error_type_from_exception` over the
exception's MRO, given as (module, class-name) pairs from most specific to
least specific: stop (keeping the default) on a class named `BaseException`,
otherwise return the first mapped tag found; the default tag is returned when
the list is exhausted. -/
def walkMRO (tbl : MappingTable) : List (String × String) → String
  | [] => DEFAULT_ERROR_TYPE
  | (m, c) :: rest =>
    if c == "BaseException" then DEFAULT_ERROR_TYPE
    else
      match lookupTable tbl m c with
      | some t => t
      | none => walkMRO tbl rest

/-- Embedding of `ExceptionMapper.get_error_type_from_exception` applied to
an exception whose MRO is `mro` (the `isinstance` guard is handled at the
caller `fromException`, which distinguishes exceptions from non-exceptions). -/
def getErrorTypeFromException (schemaName : String) (mro : List (String × String)) :
    Except String String :=
  (getMapping schemaName).map (fun tbl => walkMRO tbl mro)

/-- Spec-side rendering of the walk, following the specification's words: take
the ancestor chain up to (excluding) the class named `BaseException`, return
the first tag found in the table among those ancestors, and fall back to the
default tag when none of them has an entry. -/
def walkSpecForm (tbl : MappingTable) (mro : List (String × String)) : String :=
  ((mro.takeWhile (fun p => p.2 != "BaseException")).findSome?
    (fun p => lookupTable tbl p.1 p.2)).getD DEFAULT_ERROR_TYPE

/-! ## `ErrorSchema.from_exception` -/

/-- An element of a Python exception's `args` tuple: either an `ErrorSchema`
instance (an already-wrapped schema) or some other value. -/
inductive PyArg where
  | schema (s : ErrorSchema)
  | other (reprStr : String)
  deriving DecidableEq, Repr

/-- A Python exception as `from_exception` observes it: its MRO as
(module, class-name) pairs starting with the exception's own class, its
`str()` form, its `args` tuple, and `str(exc.__cause__ or exc.__context__)`
when a cause or context is recorded (`none` when both are `None`). -/
structure PyExc where
  mro : List (String × String)
  strForm : String
  args : List PyArg
  causeStr : Option String
  deriving DecidableEq, Repr

/-- The argument passed to `from_exception`: a genuine exception or any other
value (which the `isinstance` guard rejects with TypeError). -/
inductive PyValue where
  | exc (e : PyExc)
  | nonExc (reprStr : String)
  deriving DecidableEq, Repr

/-- Embedding of `ErrorSchema.from_exception` for the base schema.  Mirrors
the source: the `isinstance` guard (TypeError), then `exc.args[0]` (IndexError
on an empty `args` tuple), returning `args[0]` directly when it already is a
schema; otherwise the cause/context is read, the Exception Mapper classifies
the exception, `kwargs["msg"] = str(exc)` and `kwargs["exc"] = cause` when a
cause exists, and `_create_error(error_type, "Error occurred.", **kwargs)`
finishes the job. -/
def fromException (schemaName : String) (v : PyValue) (kw : Kwargs) : PyResult :=
  match v with
  | .nonExc r => .typeError ("Expected Exception, got " ++ r)
  | .exc e =>
    match e.args.head? with
    | none => .indexError
    | some (.schema s) => .ok s
    | some (.other _) =>
      match getErrorTypeFromException schemaName e.mro with
      | .error m => .valueError m
      | .ok errorType =>
        let kw1 := { kw with msg := some e.strForm }
        let kw2 :=
          match e.causeStr with
          | some c => { kw1 with exc := some c }
          | none => kw1
        createError errorType "Error occurred." kw2

/-! ## `ErrorSchema.File.not_found` (domain sub-builder) -/

/-- Split a character list on `'/'` separators. -/
def splitSlash : List Char → List (List Char)
  | [] => [[]]
  | c :: cs =>
    match splitSlash cs with
    | [] => [[]]
    | cur :: rest => if c = '/' then [] :: cur :: rest else (c :: cur) :: rest

/-- Python `Path(path).name` as characters: the final non-empty path
component (trailing slashes and empty components are dropped by `pathlib`'s
parsing). -/
def pathNameChars (p : String) : List Char :=
  ((splitSlash p.data).filter (fun comp => !comp.isEmpty)).getLastD []

/-- Index of the last `'.'` in a character list, if any (Python `rfind`). -/
def lastDotIdx (cs : List Char) : Option Nat :=
  match cs.reverse.findIdx? (fun c => c == '.') with
  | none => none
  | some j => some (cs.length - 1 - j)

/-- Whether `Path(path).suffix` is non-empty: CPython returns `name[i:]` for
`i = name.rfind('.')` when `0 < i < len(name) - 1`, else the empty string. -/
def pathHasSuffix (p : String) : Bool :=
  let name := pathNameChars p
  match lastDotIdx name with
  | none => false
  | some i => decide (0 < i) && decide (i < name.length - 1)

/-- Embedding of `ErrorSchema.File._path_type`:
`"file" if Path(path).suffix else "directory"`. -/
def pathType (p : String) : String :=
  if pathHasSuffix p then "file" else "directory"

/-- Embedding of `ErrorSchema.File.not_found(path)` with no extra keyword
arguments: the parent class resolved by `get_parent_class` is `ErrorSchema`,
and the call is `customized_error(type="file_error",
msg=f"{path_type.capitalize()} '{path}' not found.")` (`cls._get_name()` is
`"File"`, lower-cased to build the tag). -/
def fileNotFound (path : String) : PyResult :=
  customizedError
    { type := some "file_error"
      msg := some (pyCapitalize (pathType path) ++ " '" ++ path ++ "' not found.") }

/-! ## `ErrGroup` (`base/err_group.py`)

A group's observable content is its list of member schemas.  The mutating
operations are translated as state transformers returning the raised error
message (if any) together with the resulting state; a raise in the source
happens before any mutation on these paths, so the returned state on an error
is the input state. -/

/-- Boolean `isinstance(v, ErrorSchema)` test on a candidate member. -/
def isSchemaVal : PyArg → Bool
  | .schema _ => true
  | .other _ => false

/-- The schema carried by a conforming candidate member. -/
def schemaOf : PyArg → Option ErrorSchema
  | .schema s => some s
  | .other _ => none

/-- Embedding of `ErrGroup.append`: reject (ValueError) a value that is not an
`ErrorSchema` instance before touching the list; otherwise push it. -/
def groupAppend (g : List ErrorSchema) (v : PyArg) : Option String × List ErrorSchema :=
  match v with
  | .schema s => (none, g ++ [s])
  | .other _ => (some "The error schema must be an instance of ErrorSchema.", g)

/-- Argument to `ErrGroup.extend`: another group, a plain list, or any other
value. -/
inductive ExtendArg where
  | grp (g : List ErrorSchema)
  | lst (vs : List PyArg)
  | otherVal (reprStr : String)
  deriving DecidableEq, Repr

/-- Embedding of `ErrGroup.extend`: an `ErrGroup` argument contributes its
members (via `to_list()`); a list is validated element-by-element with
`all(...)` *before* `list.extend` runs, so nothing is inserted on failure; any
other argument is rejected. -/
def groupExtend (g : List ErrorSchema) (a : ExtendArg) : Option String × List ErrorSchema :=
  match a with
  | .grp g2 => (none, g ++ g2)
  | .lst vs =>
    if vs.all isSchemaVal then (none, g ++ vs.filterMap schemaOf)
    else (some "All elements must be instances of ErrorSchema.", g)
  | .otherVal _ => (some "The argument must be a list or an instance of ErrGroup.", g)

/-- Embedding of `ErrGroup.__setitem__` (non-negative index): the
`isinstance` check runs before the assignment; an out-of-range index raises
IndexError from the list assignment itself. -/
def groupSetItem (g : List ErrorSchema) (i : Nat) (v : PyArg) :
    Option String × List ErrorSchema :=
  match v with
  | .other _ => (some "The error schema must be an instance of ErrorSchema.", g)
  | .schema s =>
    if i < g.length then (none, g.set i s)
    else (some "list assignment index out of range", g)

/-- Embedding of `ErrGroup.contains_type`:
`any(err.type == error_type.lower() for err in self._error_schemas)`. -/
def containsType (g : List ErrorSchema) (errorType : String) : Bool :=
  g.any (fun err => err.type == pyLower errorType)

/-- Embedding of `ErrGroup.concat_messages`:
`f"{separator} ".join(err.msg for err in self._error_schemas)`. -/
def concatMessages (g : List ErrorSchema) (separator : String) : String :=
  String.intercalate (separator ++ " ") (g.map (·.msg))

/-- Embedding of `ErrGroup.has_errors`: `bool(self._error_schemas)`. -/
def hasErrors (g : List ErrorSchema) : Bool :=
  !g.isEmpty

/-! ## Heap model for `deepcopy` independence (`ErrGroup.copy`, `to_list`)

`copy.deepcopy` semantics is modelled with an explicit store: schema objects
live in numbered cells, a group holds cell addresses, and deep copying
allocates fresh cells holding the same values.  In-place mutation of a schema
object is a write to its cell. -/

/-- A store of schema objects: cell contents plus the next fresh address
(every allocated address is below `next`). -/
structure Heap where
  mem : Nat → ErrorSchema
  next : Nat

/-- Read the schema object in a cell. -/
def readC (h : Heap) (a : Nat) : ErrorSchema :=
  h.mem a

/-- Mutate the schema object in a cell in place. -/
def writeC (h : Heap) (a : Nat) (s : ErrorSchema) : Heap :=
  { h with mem := fun x => if x = a then s else h.mem x }

/-- Allocate a fresh cell holding `s`. -/
def allocC (h : Heap) (s : ErrorSchema) : Heap × Nat :=
  ({ mem := fun x => if x = h.next then s else h.mem x, next := h.next + 1 }, h.next)

/-- Deep-copy a list of cells: allocate a fresh cell per address, holding the
value read from the original cell. -/
def deepcopyList : Heap → List Nat → Heap × List Nat
  | h, [] => (h, [])
  | h, a :: as =>
    let p := allocC h (readC h a)
    let q := deepcopyList p.1 as
    (q.1, p.2 :: q.2)

/-- Embedding of `ErrGroup.copy`: `deepcopy(self)` clones every member cell. -/
def groupCopy (h : Heap) (g : List Nat) : Heap × List Nat :=
  deepcopyList h g

/-- Embedding of `ErrGroup.to_list`: `deepcopy(self._error_schemas)` returns
fresh clones of the member cells. -/
def groupToList (h : Heap) (g : List Nat) : Heap × List Nat :=
  deepcopyList h g

/-- Embedding of `ErrGroup.to_dicts` over the store: `to_dict()` of each
member, in order. -/
def toDictsH (h : Heap) (g : List Nat) : List (List (String × String)) :=
  g.map (fun a => (readC h a).toDict)

/-! ## Profile registration (spec-modelled) -/

/-- Mapper state for profile registration: the profile registry
(`SCHEMA_TO_MAPPINGS`) and the two memoization caches (`get_mapping` keyed by
profile name, `get_error_type` keyed by (profile, module, class)). -/
structure MapperState where
  registry : List (String × MappingTable)
  mappingCache : List (String × MappingTable)
  errorTypeCache : List ((String × String × String) × Option String)
  deriving DecidableEq

/-- Modelled from the spec: `register_schema(name, mapping)` of the Exception
Mapper is described in §4.3 of the specification ("adds a new profile; rejects
duplicate names; must invalidate caches afterward so stale lookups are not
served") but no such operation appears anywhere in the source tree, whose
profile table is the fixed `SCHEMA_TO_MAPPINGS` constant.  Registering an
already-present name raises the "already registered" usage error and leaves
the state untouched; a successful registration appends the profile and clears
both caches. -/
def registerSchema (st : MapperState) (name : String) (tbl : MappingTable) :
    Option String × MapperState :=
  if (st.registry.find? (fun p => p.1 == name)).isSome then
    (some ("Schema '" ++ name ++ "' is already registered."), st)
  else
    (none,
     { registry := st.registry ++ [(name, tbl)]
       mappingCache := []
       errorTypeCache := [] })

/-! ## Helper lemmas -/

/-- The code's MRO loop equals the specification's rendering: first table hit
among the ancestors before `BaseException`, default tag otherwise. -/
theorem walkMRO_eq_walkSpecForm (tbl : MappingTable) (mro : List (String × String)) :
    walkMRO tbl mro = walkSpecForm tbl mro := by
  induction mro with
  | nil => rfl
  | cons p rest ih =>
    obtain ⟨m, c⟩ := p
    by_cases hb : c = "BaseException"
    · subst hb
      simp [walkMRO, walkSpecForm, List.takeWhile_cons]
    · cases hl : lookupTable tbl m c with
      | some t =>
        simp [walkMRO, walkSpecForm, hb, hl, List.takeWhile_cons, List.findSome?_cons]
      | none =>
        have ih' := ih
        simp only [walkSpecForm] at ih'
        simp [walkMRO, walkSpecForm, hb, hl, List.takeWhile_cons, List.findSome?_cons, ih']

/-- Cells below the allocation frontier are untouched by a deep copy. -/
theorem deepcopyList_preserves (as : List Nat) (h : Heap) (x : Nat) (hx : x < h.next) :
    (deepcopyList h as).1.mem x = h.mem x := by
  induction as generalizing h with
  | nil => rfl
  | cons a as ih =>
    show (deepcopyList (allocC h (readC h a)).1 as).1.mem x = h.mem x
    rw [ih (allocC h (readC h a)).1 (by simp [allocC]; omega)]
    simp [allocC, Nat.ne_of_lt hx]

/-- Every address returned by a deep copy is at or above the old frontier. -/
theorem deepcopyList_addrs_ge (as : List Nat) (h : Heap) :
    ∀ b ∈ (deepcopyList h as).2, h.next ≤ b := by
  induction as generalizing h with
  | nil => simp [deepcopyList]
  | cons a as ih =>
    intro b hb
    have hb' : b = h.next ∨ b ∈ (deepcopyList (allocC h (readC h a)).1 as).2 := by
      simpa [deepcopyList] using hb
    rcases hb' with hb' | hb'
    · omega
    · have := ih (allocC h (readC h a)).1 b hb'
      simp [allocC] at this
      omega

/-- Two heaps agreeing on a group's cells give the same `to_dicts` view. -/
theorem toDictsH_congr (h h' : Heap) (g : List Nat)
    (hm : ∀ a ∈ g, h'.mem a = h.mem a) : toDictsH h' g = toDictsH h g := by
  induction g with
  | nil => rfl
  | cons a as ih =>
    have h1 : h'.mem a = h.mem a := hm a (by simp)
    have h2 := ih (fun b hb => hm b (by simp [hb]))
    simp only [toDictsH, List.map_cons, readC] at h2 ⊢
    rw [h1, h2]

/-- Writing a cell outside a group's address set leaves its view unchanged. -/
theorem toDictsH_write_ne (h : Heap) (g : List Nat) (a : Nat) (s : ErrorSchema)
    (hne : ∀ b ∈ g, b ≠ a) : toDictsH (writeC h a s) g = toDictsH h g := by
  apply toDictsH_congr
  intro b hb
  simp [writeC, hne b hb]

/-- Deep copies read back the same schema values as the originals. -/
theorem deepcopyList_reads (g : List Nat) (h : Heap) (wf : ∀ a ∈ g, a < h.next) :
    toDictsH (deepcopyList h g).1 (deepcopyList h g).2 = toDictsH h g := by
  induction g generalizing h with
  | nil => rfl
  | cons a as ih =>
    have wfa : a < h.next := wf a (by simp)
    have wfas : ∀ b ∈ as, b < h.next := fun b hb => wf b (by simp [hb])
    show toDictsH (deepcopyList (allocC h (readC h a)).1 as).1
        ((allocC h (readC h a)).2 :: (deepcopyList (allocC h (readC h a)).1 as).2) =
      toDictsH h (a :: as)
    simp only [toDictsH, List.map_cons]
    have hhead :
        readC (deepcopyList (allocC h (readC h a)).1 as).1 (allocC h (readC h a)).2 =
          readC h a := by
      show (deepcopyList (allocC h (readC h a)).1 as).1.mem h.next = _
      rw [deepcopyList_preserves as (allocC h (readC h a)).1 h.next (by simp [allocC])]
      simp [allocC, readC]
    have htail :
        toDictsH (deepcopyList (allocC h (readC h a)).1 as).1
            (deepcopyList (allocC h (readC h a)).1 as).2 = toDictsH h as := by
      rw [ih (allocC h (readC h a)).1
        (fun b hb => by have := wfas b hb; simp [allocC]; omega)]
      exact toDictsH_congr h (allocC h (readC h a)).1 as
        (fun b hb => by simp [allocC, Nat.ne_of_lt (wfas b hb)])
    simp only [toDictsH] at htail
    rw [hhead, htail]

/-! ## Claim theorems -/

/-- C1.  The named factories of the base `ErrorSchema` format the message as
`"<Readable Category>: <body>"` with the body's first character lower-cased —
the `database_error(msg="Connection refused")` scenario checks out — but the
claim's clause about a supplied `exc` argument fails on the code: the `exc`
keyword is read but never popped, so it reaches the pydantic constructor,
whose `extra="forbid"` configuration rejects it and no instance is produced.
This contradicts `_create_error`'s own docstring (and the sibling FastAPI
variant, which pops `exc`). -/
theorem databaseError_with_exc_hits_extra_forbid :
    databaseError { msg := some "Connection refused" } =
      .ok { type := "database_error", msg := "Database error: connection refused" } ∧
    databaseError { msg := some "Connection refused", exc := some "division by zero" } =
      .validationError ["exc"] := by
  decide

/-- C2.  Every named factory rejects an explicit `type` keyword with the
`restrict_arguments` ValueError, producing no instance. -/
theorem named_factories_reject_type_override (kw : Kwargs) (t : String)
    (h : kw.type = some t) :
    databaseError kw = .valueError "Overriding the 'type' field is not allowed." ∧
    fileError kw = .valueError "Overriding the 'type' field is not allowed." ∧
    runtimeError kw = .valueError "Overriding the 'type' field is not allowed." ∧
    timeoutError kw = .valueError "Overriding the 'type' field is not allowed." ∧
    parseError kw = .valueError "Overriding the 'type' field is not allowed." ∧
    valueErrorFactory kw = .valueError "Overriding the 'type' field is not allowed." := by
  simp [databaseError, fileError, runtimeError, timeoutError, parseError,
    valueErrorFactory, restrictType, h]

/-- Witness for C2 at `database_error(type="x")`. -/
theorem named_factories_reject_type_override_witness :
    databaseError { type := some "x" } =
      .valueError "Overriding the 'type' field is not allowed." :=
  (named_factories_reject_type_override { type := some "x" } "x" rfl).1

/-- C3.  For every registered profile and every ancestor chain, the mapper's
classification equals the specification's rendering: the first table entry
among the ancestors before `BaseException`, and the default tag
`"unknown_error"` when none of those ancestors has an entry. -/
theorem getErrorTypeFromException_first_match (n : String) (h : validSchema n = true)
    (mro : List (String × String)) :
    (∃ tbl, getMapping n = Except.ok tbl ∧
      getErrorTypeFromException n mro = Except.ok (walkSpecForm tbl mro) ∧
      ((∀ p ∈ mro.takeWhile (fun q => q.2 != "BaseException"),
          lookupTable tbl p.1 p.2 = none) →
        getErrorTypeFromException n mro = Except.ok DEFAULT_ERROR_TYPE)) ∧
    DEFAULT_ERROR_TYPE = "unknown_error" := by
  have hn : n = "ErrorSchema" ∨ n = "FastAPIErrorSchema" := by
    simpa [validSchema] using h
  refine ⟨?_, rfl⟩
  rcases hn with hn | hn <;> subst hn
  · refine ⟨EXCEPTION_MAPPINGS_BASE, by simp [getMapping], ?_, ?_⟩
    · simp [getErrorTypeFromException, getMapping, Except.map, walkMRO_eq_walkSpecForm]
    · intro hnone
      simp [getErrorTypeFromException, getMapping, Except.map, walkMRO_eq_walkSpecForm,
        walkSpecForm, List.findSome?_eq_none_iff.mpr hnone]
  · refine ⟨EXCEPTION_MAPPINGS_FASTAPI, by simp [getMapping], ?_, ?_⟩
    · simp [getErrorTypeFromException, getMapping, Except.map, walkMRO_eq_walkSpecForm]
    · intro hnone
      simp [getErrorTypeFromException, getMapping, Except.map, walkMRO_eq_walkSpecForm,
        walkSpecForm, List.findSome?_eq_none_iff.mpr hnone]

/-- Witness for C3: a chain `ChildError → Timeout → Exception` where only the
parent `Timeout` is mapped resolves to the parent's tag `timeout_error`. -/
theorem getErrorTypeFromException_first_match_witness :
    (∃ tbl, getMapping "ErrorSchema" = Except.ok tbl ∧
      getErrorTypeFromException "ErrorSchema"
          [("myapp", "ChildError"), ("requests.exceptions", "Timeout"),
           ("builtins", "Exception"), ("builtins", "BaseException"),
           ("builtins", "object")] =
        Except.ok (walkSpecForm tbl
          [("myapp", "ChildError"), ("requests.exceptions", "Timeout"),
           ("builtins", "Exception"), ("builtins", "BaseException"),
           ("builtins", "object")]) ∧
      ((∀ p ∈ [("myapp", "ChildError"), ("requests.exceptions", "Timeout"),
           ("builtins", "Exception"), ("builtins", "BaseException"),
           ("builtins", "object")].takeWhile (fun q => q.2 != "BaseException"),
          lookupTable tbl p.1 p.2 = none) →
        getErrorTypeFromException "ErrorSchema"
            [("myapp", "ChildError"), ("requests.exceptions", "Timeout"),
             ("builtins", "Exception"), ("builtins", "BaseException"),
             ("builtins", "object")] =
          Except.ok DEFAULT_ERROR_TYPE)) ∧
    DEFAULT_ERROR_TYPE = "unknown_error" :=
  getErrorTypeFromException_first_match "ErrorSchema" (by decide)
    [("myapp", "ChildError"), ("requests.exceptions", "Timeout"),
     ("builtins", "Exception"), ("builtins", "BaseException"),
     ("builtins", "object")]

/-- C4.  `from_exception` classifies via the mapper and sets the message from
`str(exc)`; without a cause this succeeds.  But when the exception carries a
cause/context, the code stores it under `kwargs["exc"]`, and the base
`_create_error` forwards that key to the `extra="forbid"` constructor: pydantic
rejects it and no instance is produced, contradicting `from_exception`'s own
docstring about capturing chained exceptions. -/
theorem fromException_with_cause_hits_extra_forbid :
    fromException "ErrorSchema"
        (.exc { mro := [("builtins", "RuntimeError"), ("builtins", "Exception"),
                        ("builtins", "BaseException"), ("builtins", "object")],
                strForm := "boom", args := [.other "boom"],
                causeStr := some "kaput" }) {} =
      .validationError ["exc"] ∧
    fromException "ErrorSchema"
        (.exc { mro := [("builtins", "RuntimeError"), ("builtins", "Exception"),
                        ("builtins", "BaseException"), ("builtins", "object")],
                strForm := "boom", args := [.other "boom"],
                causeStr := none }) {} =
      .ok { type := "runtime_error", msg := "Runtime error: boom" } := by
  decide

/-- C5 counterexample.  `File.not_found(path="config.json")` yields type
`file_error`, but its message is `"File error: file 'config.json' not
found."` — the shared formatter lower-cases the body's first character, so the
claimed capitalized text `"File 'config.json' not found."` does not occur in
it. -/
theorem fileNotFound_msg_lacks_capitalized_text :
    fileNotFound "config.json" =
      .ok { type := "file_error", msg := "File error: file 'config.json' not found." } ∧
    strContainsSub "File error: file 'config.json' not found."
      "File 'config.json' not found." = false := by
  decide

/-- C5 amended.  `File.not_found(path="config.json")` detects a file (the path
has an extension), yields type `file_error`, and its message contains the text
`"file 'config.json' not found."` — the first character having been
lower-cased by the shared formatter. -/
theorem fileNotFound_config_json (s : ErrorSchema)
    (h : fileNotFound "config.json" = .ok s) :
    s.type = "file_error" ∧
    strContainsSub s.msg "file 'config.json' not found." = true ∧
    pathType "config.json" = "file" := by
  have : fileNotFound "config.json" =
      .ok { type := "file_error", msg := "File error: file 'config.json' not found." } := by
    decide
  rw [this] at h
  cases h
  exact ⟨rfl, by decide, by decide⟩

/-- Witness for C5: the call does return an instance, with the stated type,
message text, and path detection. -/
theorem fileNotFound_config_json_witness :
    ErrorSchema.type
        { type := "file_error", msg := "File error: file 'config.json' not found." } =
      "file_error" ∧
    strContainsSub
        (ErrorSchema.msg
          { type := "file_error", msg := "File error: file 'config.json' not found." })
        "file 'config.json' not found." = true ∧
    pathType "config.json" = "file" :=
  fileNotFound_config_json
    { type := "file_error", msg := "File error: file 'config.json' not found." }
    (by decide)

/-- C6 counterexample.  `contains_type` lower-cases only its argument, never
the members' `type` fields: a group whose member has type `"DATABASE_ERROR"`
matches `"database_error"` up to letter case, yet `contains_type` returns
false — so the test is not case-normalized over member `type` fields. -/
theorem containsType_not_case_normalized_on_members :
    ¬ (containsType [{ type := "DATABASE_ERROR", msg := "m" }] "database_error" = true ↔
      ∃ e ∈ [({ type := "DATABASE_ERROR", msg := "m" } : ErrorSchema)],
        pyLower e.type = pyLower "database_error") := by
  decide

/-- C6 amended.  `contains_type(tag)` returns true exactly when some member's
`type` equals the lower-cased tag verbatim (only the query is normalized); in
particular the two-error scenario from the specification holds. -/
theorem containsType_iff_member_eq_lowered_query :
    (∀ (g : List ErrorSchema) (t : String),
      containsType g t = true ↔ ∃ e ∈ g, e.type = pyLower t) ∧
    containsType
        [{ type := "database_error", msg := "Database error: connection refused" },
         { type := "file_error", msg := "File error: file 'a.txt' not found." }]
        "database_error" = true ∧
    containsType
        [{ type := "database_error", msg := "Database error: connection refused" },
         { type := "file_error", msg := "File error: file 'a.txt' not found." }]
        "timeout_error" = false := by
  refine ⟨fun g t => ?_, by decide, by decide⟩
  simp [containsType, List.any_eq_true, beq_iff_eq]

/-- C7.  Each mutating operation of `ErrGroup` rejects a non-conforming
argument with a ValueError raised before any mutation, so the group's contents
are exactly what they were: `append` with a non-schema, `extend` with a list
containing a non-schema (validated with `all(...)` before inserting anything),
`extend` with a value that is neither a list nor a group, and replace-at-index
with a non-schema. -/
theorem group_mutators_reject_nonconforming_and_preserve (g : List ErrorSchema) :
    (∀ r, groupAppend g (.other r) =
      (some "The error schema must be an instance of ErrorSchema.", g)) ∧
    (∀ vs, (∃ v ∈ vs, isSchemaVal v = false) →
      groupExtend g (.lst vs) =
        (some "All elements must be instances of ErrorSchema.", g)) ∧
    (∀ r, groupExtend g (.otherVal r) =
      (some "The argument must be a list or an instance of ErrGroup.", g)) ∧
    (∀ i r, groupSetItem g i (.other r) =
      (some "The error schema must be an instance of ErrorSchema.", g)) := by
  refine ⟨fun r => rfl, ?_, fun r => rfl, fun i r => rfl⟩
  intro vs hv
  have hall : vs.all isSchemaVal = false := by
    rcases hv with ⟨v, hvmem, hvfalse⟩
    cases hcase : vs.all isSchemaVal with
    | false => rfl
    | true =>
      have := List.all_eq_true.mp hcase v hvmem
      rw [hvfalse] at this
      cases this
  simp [groupExtend, hall]

/-- Witness for C7: extending an empty group with a list holding one
non-schema value fails and leaves the group empty. -/
theorem group_mutators_reject_nonconforming_and_preserve_witness :
    groupExtend [] (.lst [PyArg.other "not a schema"]) =
      (some "All elements must be instances of ErrorSchema.", []) :=
  (group_mutators_reject_nonconforming_and_preserve []).2.1
    [PyArg.other "not a schema"] (by decide)

/-- C8.  `copy()` deep-clones the group: the clone's `to_dicts()` equals the
original's; mutating any original member cell afterwards does not change the
clone's view; and mutating the fresh cells returned by `to_list()` does not
change the group's own view. -/
theorem groupCopy_deep_and_independent (h : Heap) (g : List Nat)
    (wf : ∀ a ∈ g, a < h.next) :
    toDictsH (groupCopy h g).1 (groupCopy h g).2 = toDictsH h g ∧
    (∀ a ∈ g, ∀ s, toDictsH (writeC (groupCopy h g).1 a s) (groupCopy h g).2 =
      toDictsH (groupCopy h g).1 (groupCopy h g).2) ∧
    (∀ b ∈ (groupToList h g).2, ∀ s,
      toDictsH (writeC (groupToList h g).1 b s) g = toDictsH h g) := by
  refine ⟨deepcopyList_reads g h wf, ?_, ?_⟩
  · intro a ha s
    apply toDictsH_write_ne
    intro b hb
    have hge := deepcopyList_addrs_ge g h b hb
    have hlt := wf a ha
    omega
  · intro b hb s
    have hge : h.next ≤ b := deepcopyList_addrs_ge g h b hb
    calc toDictsH (writeC (groupToList h g).1 b s) g
        = toDictsH (groupToList h g).1 g := by
          apply toDictsH_write_ne
          intro c hc
          have := wf c hc
          omega
      _ = toDictsH h g :=
          toDictsH_congr h (groupToList h g).1 g
            (fun c hc => deepcopyList_preserves g h c (wf c hc))

/-- Witness for C8 on a one-member group in a one-cell store. -/
theorem groupCopy_deep_and_independent_witness :
    toDictsH
        (groupCopy { mem := fun _ => { type := "database_error", msg := "m" }, next := 1 }
          [0]).1
        (groupCopy { mem := fun _ => { type := "database_error", msg := "m" }, next := 1 }
          [0]).2 =
      toDictsH { mem := fun _ => { type := "database_error", msg := "m" }, next := 1 } [0] :=
  (groupCopy_deep_and_independent
    { mem := fun _ => { type := "database_error", msg := "m" }, next := 1 } [0]
    (by decide)).1

/-- C9.  Registering an already-registered profile name fails with the
"already registered" signal and leaves the whole state (registry included)
untouched; a successful registration appends the profile and empties both
lookup caches, so no stale mapping can be served from them. -/
theorem registerSchema_duplicate_rejected_and_caches_cleared
    (st : MapperState) (name : String) (tbl : MappingTable) :
    ((st.registry.find? (fun p => p.1 == name)).isSome = true →
      registerSchema st name tbl =
        (some ("Schema '" ++ name ++ "' is already registered."), st)) ∧
    ((st.registry.find? (fun p => p.1 == name)).isSome = false →
      (registerSchema st name tbl).1 = none ∧
      (registerSchema st name tbl).2.mappingCache = [] ∧
      (registerSchema st name tbl).2.errorTypeCache = [] ∧
      (registerSchema st name tbl).2.registry = st.registry ++ [(name, tbl)]) := by
  constructor <;> intro h <;> simp [registerSchema, h]

/-- Witness for C9: re-registering `"ErrorSchema"` on a state that already
holds it fails and returns the state unchanged. -/
theorem registerSchema_duplicate_rejected_and_caches_cleared_witness :
    registerSchema
        { registry := [("ErrorSchema", EXCEPTION_MAPPINGS_BASE)],
          mappingCache := [], errorTypeCache := [] } "ErrorSchema" [] =
      (some ("Schema '" ++ "ErrorSchema" ++ "' is already registered."),
       { registry := [("ErrorSchema", EXCEPTION_MAPPINGS_BASE)],
         mappingCache := [], errorTypeCache := [] }) :=
  (registerSchema_duplicate_rejected_and_caches_cleared
    { registry := [("ErrorSchema", EXCEPTION_MAPPINGS_BASE)],
      mappingCache := [], errorTypeCache := [] } "ErrorSchema" []).1 (by decide)

/-- C10.  On an exception whose `args` tuple is empty — e.g. `Exception()` —
`from_exception` neither produces a schema nor raises its documented
TypeError: the unguarded `exc.args[0]` fails with IndexError before
classification begins. -/
theorem fromException_empty_args_raises_IndexError (n : String) (kw : Kwargs)
    (e : PyExc) (h : e.args = []) :
    fromException n (.exc e) kw = .indexError ∧
    (∀ s, fromException n (.exc e) kw ≠ .ok s) ∧
    (∀ m, fromException n (.exc e) kw ≠ .typeError m) := by
  have hmain : fromException n (.exc e) kw = .indexError := by
    simp [fromException, h]
  refine ⟨hmain, fun s hs => ?_, fun m hm => ?_⟩
  · rw [hmain] at hs
    cases hs
  · rw [hmain] at hm
    cases hm

/-- Witness for C10 at a bare `Exception()`. -/
theorem fromException_empty_args_raises_IndexError_witness :
    fromException "ErrorSchema"
        (.exc { mro := [("builtins", "Exception"), ("builtins", "BaseException"),
                        ("builtins", "object")],
                strForm := "", args := [], causeStr := none }) {} =
      .indexError :=
  (fromException_empty_args_raises_IndexError "ErrorSchema" {}
    { mro := [("builtins", "Exception"), ("builtins", "BaseException"),
              ("builtins", "object")],
      strForm := "", args := [], causeStr := none } rfl).1

end PyErrorSchema
